import Mathlib

/-!
Shallow embedding of the volunteer-and-event-management service
(`src/index.ts`): four append-only collections (volunteers, events,
registrations, feedback) behind create / get / list HTTP handlers.

Request bodies arrive as parsed JSON, so each body field is an optional
JSON value (`Option JsonVal`); the handlers inspect those values with
JavaScript truthiness, `typeof`/`Array.isArray` tests, the email regular
expression, and strict equality, all of which are embedded below.
Identifier generation (`uuidv4()`) and clock reads (`new Date()`) are
passed in as parameters; `StableBTreeMap` is embedded as a list of
records with `insert` appending and `get` searching by id (only
membership and id-lookup matter to the properties proved here, not key
order).
-/

/-- A parsed JSON value, as a request-body field holds it at runtime.
JSON objects are embedded as a single abstract constructor: the handlers never
inspect the contents of a nested object (only `typeof`, truthiness and
reference equality ever see one). Numbers are embedded as integers; the
handlers only compare numbers to zero (truthiness) and store them. -/
inductive JsonVal : Type where
  | jnull : JsonVal
  | jbool : Bool → JsonVal
  | jnum : Int → JsonVal
  | jstr : String → JsonVal
  | jarr : List JsonVal → JsonVal
  | jobj : JsonVal

namespace JsonVal

/-- JavaScript truthiness of a JSON value: `null`, `false`, `0` and `""`
are falsy; every array and object is truthy (also the empty array). -/
def truthy : JsonVal → Bool
  | jnull => false
  | jbool b => b
  | jnum n => n != 0
  | jstr s => !s.isEmpty
  | jarr _ => true
  | jobj => true

/-- `typeof v === "string"`. -/
def isString : JsonVal → Bool
  | jstr _ => true
  | _ => false

/-- `Array.isArray(v)`. -/
def isArray : JsonVal → Bool
  | jarr _ => true
  | _ => false

/-- `typeof v === "number"`. -/
def isNumber : JsonVal → Bool
  | jnum _ => true
  | _ => false

/-- JavaScript strict equality `===` between a freshly parsed
request-body value and a previously stored value. Primitives compare by
value; arrays and objects compare by reference, and a value just parsed
from a request body is never reference-identical to a stored one, so
those comparisons are `false`. -/
def jsStrictEq : JsonVal → JsonVal → Bool
  | jnull, jnull => true
  | jbool a, jbool b => a == b
  | jnum a, jnum b => a == b
  | jstr a, jstr b => a == b
  | _, _ => false

mutual

/-- JavaScript `String(v)` coercion, as `regex.test(v)` applies it to a
non-string argument: arrays join their elements with commas (with `null`
rendered as the empty string inside an array), objects render as
`[object Object]`. -/
def jsToString : JsonVal → String
  | jnull => "null"
  | jbool b => cond b "true" "false"
  | jnum n => toString n
  | jstr s => s
  | jarr xs => jsArrToString xs
  | jobj => "[object Object]"

/-- `Array.prototype.join(",")` with `null` elements rendered empty. -/
def jsArrToString : List JsonVal → String
  | [] => ""
  | [jnull] => ""
  | [v] => jsToString v
  | jnull :: rest => "," ++ jsArrToString rest
  | v :: rest => jsToString v ++ "," ++ jsArrToString rest

end

end JsonVal

/-- Truthiness of an optional body field; an absent field reads as
`undefined`, which is falsy. -/
def truthyOpt : Option JsonVal → Bool
  | none => false
  | some v => v.truthy

/-- `typeof field === "string"` for an optional body field. -/
def isStringOpt : Option JsonVal → Bool
  | some v => v.isString
  | none => false

/-- `Array.isArray(field)` for an optional body field. -/
def isArrayOpt : Option JsonVal → Bool
  | some v => v.isArray
  | none => false

/-- `typeof field === "number"` for an optional body field. -/
def isNumberOpt : Option JsonVal → Bool
  | some v => v.isNumber
  | none => false

/-! ### The email regular expression

`const emailRegex = /^[^\s@]+@[^\s@]+\.[^\s@]+$/` -/

/-- The characters matched by `\s` in a JavaScript regular expression. -/
def jsWhitespace (c : Char) : Bool :=
  [' ', '\t', '\n', '\u000B', '\u000C', '\r', ' ', ' ', '\u2000', '\u2001', '\u2002', '\u2003', '\u2004', '\u2005', '\u2006', '\u2007', '\u2008', '\u2009', '\u200A', ' ', ' ', ' ', ' ', '　', '﻿'].contains c

/-- A character matched by the class `[^\s@]`. -/
def emailChar (c : Char) : Bool :=
  !jsWhitespace c && c != '@'

/-- Executable form of `emailRegex.test` on the character list of the
tested string. Both `[^\s@]+` runs around the `@` exclude `@`, so a
matching string splits at its first `@`: a non-empty prefix of
`[^\s@]` characters, the `@`, and a remainder of `[^\s@]` characters
containing a `.` that is neither its first nor its last character. -/
def emailMatch (cs : List Char) : Bool :=
  let l := cs.takeWhile (fun c => c != '@')
  match cs.dropWhile (fun c => c != '@') with
  | [] => false
  | _ :: rest =>
      !l.isEmpty && l.all emailChar && rest.all emailChar &&
        ((rest.drop 1).dropLast).contains '.'

/-- `emailRegex.test(String(v))`: a non-string argument is coerced. -/
def emailRegexTest (s : String) : Bool :=
  emailMatch s.data

/-! ### Records

The four record classes. Fields taken verbatim from the request body
keep type `JsonVal` (the constructors store whatever value validation
let through); generated ids are strings, creation instants are `Nat`
millisecond timestamps supplied by the caller. -/

/-- The `Volunteer` class. Validation guarantees `name` and `contact`
are non-empty strings and `skills` is an array, but `email` is only
checked for truthiness, so any truthy JSON value can end up stored in
`email`. -/
structure Volunteer where
  id : String
  name : JsonVal
  email : JsonVal
  contact : JsonVal
  skills : JsonVal
  createdAt : Nat

/-- The `Event` class. `dateTime` holds the result of
`new Date(req.body.dateTime)`: `some ms` for a valid date, `none` for an
Invalid Date (unparseable input). -/
structure EventRec where
  id : String
  title : JsonVal
  description : JsonVal
  dateTime : Option Int
  location : JsonVal
  organizerId : JsonVal
  createdAt : Nat

/-- The `Registration` class; `attendedAt` is set to `null` by the
constructor and no code path ever assigns it again. -/
structure Registration where
  id : String
  eventId : JsonVal
  volunteerId : JsonVal
  status : JsonVal
  registeredAt : Nat
  attendedAt : Option Nat

/-- The `Feedback` class. -/
structure Feedback where
  id : String
  volunteerId : JsonVal
  eventId : JsonVal
  feedback : JsonVal
  rating : JsonVal
  createdAt : Nat

/-- The four stable maps (`volunteersStorage`, `eventsStorage`,
`registrationsStorage`, `feedbacksStorage`), each embedded as the list
of stored records: `insert` appends, `get` searches by id, `values`
returns the list. -/
structure StoreState where
  volunteers : List Volunteer
  events : List EventRec
  registrations : List Registration
  feedbacks : List Feedback

/-- The state at process start: every collection empty. -/
def emptyState : StoreState :=
  { volunteers := [], events := [], registrations := [], feedbacks := [] }

/-! ### POST /volunteers -/

/-- Parsed JSON body of a volunteer-creation request. -/
structure VolunteerBody where
  name : Option JsonVal
  email : Option JsonVal
  contact : Option JsonVal
  skills : Option JsonVal

/-- Outcome of `POST /volunteers`. The three errors are the three
distinct 400 responses of the handler, in source order: the combined
presence/type check, the email-format check, the duplicate-email
check. -/
inductive VolunteerPostResult : Type where
  | invalidFields : VolunteerPostResult
  | invalidEmail : VolunteerPostResult
  | duplicateEmail : VolunteerPostResult
  | created : Volunteer → VolunteerPostResult

/-- HTTP status code of a `POST /volunteers` outcome. -/
def VolunteerPostResult.status : VolunteerPostResult → Nat
  | .created _ => 201
  | _ => 400

/-- The `POST /volunteers` handler. `freshId` stands for `uuidv4()` and
`now` for `new Date()` inside the `Volunteer` constructor. The guard
mirrors the source condition verbatim: `!name`, `typeof name`, `!email`
(no type test on `email`), `!contact`, `typeof contact`, `!skills`,
`Array.isArray(skills)`. -/
def createVolunteer (s : StoreState) (b : VolunteerBody) (freshId : String)
    (now : Nat) : VolunteerPostResult × StoreState :=
  if !truthyOpt b.name || !isStringOpt b.name || !truthyOpt b.email ||
      !truthyOpt b.contact || !isStringOpt b.contact ||
      !truthyOpt b.skills || !isArrayOpt b.skills then
    (.invalidFields, s)
  else
    let emailRaw := b.email.getD .jnull
    if !emailRegexTest (JsonVal.jsToString emailRaw) then
      (.invalidEmail, s)
    else if (s.volunteers.find? fun v => v.email.jsStrictEq emailRaw).isSome then
      (.duplicateEmail, s)
    else
      let v : Volunteer :=
        { id := freshId, name := b.name.getD .jnull, email := emailRaw,
          contact := b.contact.getD .jnull, skills := b.skills.getD .jnull,
          createdAt := now }
      (.created v, { s with volunteers := s.volunteers ++ [v] })

/-! ### GET /volunteers/:id and GET /volunteers -/

/-- Outcome of `GET /volunteers/:id`: 200 with the record, or 404. (The
handler also has a `typeof id !== "string"` branch, but an Express path
parameter is always a string, so that branch is unreachable and the id
is taken here as a `String`.) -/
inductive VolunteerGetResult : Type where
  | found : Volunteer → VolunteerGetResult
  | notFound : VolunteerGetResult

/-- HTTP status code of a `GET /volunteers/:id` outcome. -/
def VolunteerGetResult.status : VolunteerGetResult → Nat
  | .found _ => 200
  | .notFound => 404

/-- The `GET /volunteers/:id` handler: `volunteersStorage.get(id)`,
404 when the result is `None`, otherwise 200 with the record. -/
def getVolunteer (s : StoreState) (id : String) :
    VolunteerGetResult × StoreState :=
  match s.volunteers.find? (fun v => v.id == id) with
  | some v => (.found v, s)
  | none => (.notFound, s)

/-- The `GET /volunteers` handler: 200 with `volunteersStorage.values()`. -/
def listVolunteers (s : StoreState) : List Volunteer × StoreState :=
  (s.volunteers, s)

/-! ### POST /events and GET /events -/

/-- Parsed JSON body of an event-creation request. -/
structure EventBody where
  title : Option JsonVal
  description : Option JsonVal
  dateTime : Option JsonVal
  location : Option JsonVal
  organizerId : Option JsonVal

/-- Outcome of `POST /events`: the single combined 400, or 201. -/
inductive EventPostResult : Type where
  | invalidFields : EventPostResult
  | created : EventRec → EventPostResult

/-- HTTP status code of a `POST /events` outcome. -/
def EventPostResult.status : EventPostResult → Nat
  | .created _ => 201
  | _ => 400

/-- The `POST /events` handler. `dateParse` stands for the JavaScript
`new Date(value)` conversion (an external runtime capability): `some ms`
when the value parses, `none` for an Invalid Date. The guard mirrors the
source condition: truthiness and string tests on `title`, `description`,
`location`, `organizerId`, but only a truthiness test on `dateTime` —
whether the value parses is never checked. -/
def createEvent (dateParse : JsonVal → Option Int) (s : StoreState)
    (b : EventBody) (freshId : String) (now : Nat) :
    EventPostResult × StoreState :=
  if !truthyOpt b.title || !isStringOpt b.title ||
      !truthyOpt b.description || !isStringOpt b.description ||
      !truthyOpt b.dateTime ||
      !truthyOpt b.location || !isStringOpt b.location ||
      !truthyOpt b.organizerId || !isStringOpt b.organizerId then
    (.invalidFields, s)
  else
    let e : EventRec :=
      { id := freshId, title := b.title.getD .jnull,
        description := b.description.getD .jnull,
        dateTime := dateParse (b.dateTime.getD .jnull),
        location := b.location.getD .jnull,
        organizerId := b.organizerId.getD .jnull, createdAt := now }
    (.created e, { s with events := s.events ++ [e] })

/-- The `GET /events` handler: 200 with `eventsStorage.values()`. -/
def listEvents (s : StoreState) : List EventRec × StoreState :=
  (s.events, s)

/-! ### POST /registrations and GET /registrations -/

/-- Parsed JSON body of a registration-creation request. -/
structure RegistrationBody where
  eventId : Option JsonVal
  volunteerId : Option JsonVal
  status : Option JsonVal

/-- Outcome of `POST /registrations`. -/
inductive RegistrationPostResult : Type where
  | invalidFields : RegistrationPostResult
  | created : Registration → RegistrationPostResult

/-- HTTP status code of a `POST /registrations` outcome. -/
def RegistrationPostResult.status : RegistrationPostResult → Nat
  | .created _ => 201
  | _ => 400

/-- The `POST /registrations` handler. `eventId`, `volunteerId` and
`status` must be truthy strings; no lookup against the event or
volunteer collections is made and `status` is never compared to the
conceptual enumeration. The constructor sets `registeredAt := now` and
`attendedAt := null`. -/
def createRegistration (s : StoreState) (b : RegistrationBody)
    (freshId : String) (now : Nat) : RegistrationPostResult × StoreState :=
  if !truthyOpt b.eventId || !isStringOpt b.eventId ||
      !truthyOpt b.volunteerId || !isStringOpt b.volunteerId ||
      !truthyOpt b.status || !isStringOpt b.status then
    (.invalidFields, s)
  else
    let r : Registration :=
      { id := freshId, eventId := b.eventId.getD .jnull,
        volunteerId := b.volunteerId.getD .jnull,
        status := b.status.getD .jnull,
        registeredAt := now, attendedAt := none }
    (.created r, { s with registrations := s.registrations ++ [r] })

/-- The `GET /registrations` handler. -/
def listRegistrations (s : StoreState) : List Registration × StoreState :=
  (s.registrations, s)

/-! ### POST /feedbacks and GET /feedbacks -/

/-- Parsed JSON body of a feedback-creation request. -/
structure FeedbackBody where
  volunteerId : Option JsonVal
  eventId : Option JsonVal
  feedback : Option JsonVal
  rating : Option JsonVal

/-- Outcome of `POST /feedbacks`. -/
inductive FeedbackPostResult : Type where
  | invalidFields : FeedbackPostResult
  | created : Feedback → FeedbackPostResult

/-- HTTP status code of a `POST /feedbacks` outcome. -/
def FeedbackPostResult.status : FeedbackPostResult → Nat
  | .created _ => 201
  | _ => 400

/-- The `POST /feedbacks` handler. The guard is
`!volunteerId || typeof volunteerId !== "string" || ... || !rating ||
typeof rating !== "number"`: the presence of `rating` is tested by
truthiness before its type, so the number `0` (falsy) is rejected by the
same branch as a missing field, while the numeric range is never
examined. -/
def createFeedback (s : StoreState) (b : FeedbackBody) (freshId : String)
    (now : Nat) : FeedbackPostResult × StoreState :=
  if !truthyOpt b.volunteerId || !isStringOpt b.volunteerId ||
      !truthyOpt b.eventId || !isStringOpt b.eventId ||
      !truthyOpt b.feedback || !isStringOpt b.feedback ||
      !truthyOpt b.rating || !isNumberOpt b.rating then
    (.invalidFields, s)
  else
    let f : Feedback :=
      { id := freshId, volunteerId := b.volunteerId.getD .jnull,
        eventId := b.eventId.getD .jnull,
        feedback := b.feedback.getD .jnull,
        rating := b.rating.getD .jnull, createdAt := now }
    (.created f, { s with feedbacks := s.feedbacks ++ [f] })

/-- The `GET /feedbacks` handler. -/
def listFeedbacks (s : StoreState) : List Feedback × StoreState :=
  (s.feedbacks, s)

/-! ### Reachable states

The states a running process can be in: everything obtainable from the
empty store by the exposed operations. The lookup and list handlers
return their input state unchanged (proved below), so closing under the
four create handlers closes under every exposed operation. -/

/-- Reachability of a store state from the empty store. -/
inductive Reachable : StoreState → Prop where
  | empty : Reachable emptyState
  | stepVolunteer (s : StoreState) (b : VolunteerBody) (id : String) (now : Nat) :
      Reachable s → Reachable (createVolunteer s b id now).2
  | stepEvent (dp : JsonVal → Option Int) (s : StoreState) (b : EventBody)
      (id : String) (now : Nat) :
      Reachable s → Reachable (createEvent dp s b id now).2
  | stepRegistration (s : StoreState) (b : RegistrationBody) (id : String)
      (now : Nat) :
      Reachable s → Reachable (createRegistration s b id now).2
  | stepFeedback (s : StoreState) (b : FeedbackBody) (id : String) (now : Nat) :
      Reachable s → Reachable (createFeedback s b id now).2

/-! ### Spec-level predicates for the volunteer pipeline -/

/-- What the first volunteer guard actually accepts: `name` and
`contact` are non-empty strings, `email` is any truthy JSON value (its
type is not tested), `skills` is any array (also empty). -/
def VolunteerFieldsOk (b : VolunteerBody) : Prop :=
  (∃ nm, b.name = some (.jstr nm) ∧ nm ≠ "") ∧
  (∃ ev, b.email = some ev ∧ ev.truthy = true) ∧
  (∃ ct, b.contact = some (.jstr ct) ∧ ct ≠ "") ∧
  (∃ sk, b.skills = some (.jarr sk))

/-- The email-format check: the regular expression accepts the string
coercion of the supplied email value. -/
def VolunteerEmailOk (b : VolunteerBody) : Prop :=
  emailRegexTest (JsonVal.jsToString (b.email.getD .jnull)) = true

/-- The uniqueness scan succeeds: no stored volunteer record has an
email strictly equal to the supplied one. -/
def VolunteerEmailFresh (s : StoreState) (b : VolunteerBody) : Prop :=
  ∀ v ∈ s.volunteers, v.email.jsStrictEq (b.email.getD .jnull) = false

/-- The record the `Volunteer` constructor builds from a request body. -/
def mkVolunteer (b : VolunteerBody) (freshId : String) (now : Nat) : Volunteer :=
  { id := freshId, name := b.name.getD .jnull, email := b.email.getD .jnull,
    contact := b.contact.getD .jnull, skills := b.skills.getD .jnull,
    createdAt := now }

theorem truthy_isString_iff (o : Option JsonVal) :
    (truthyOpt o = true ∧ isStringOpt o = true) ↔
      ∃ s, o = some (.jstr s) ∧ s ≠ "" := by
  cases o with
  | none => simp [truthyOpt, isStringOpt]
  | some v =>
      cases v <;>
        simp [truthyOpt, isStringOpt, JsonVal.truthy, JsonVal.isString,
          Bool.eq_false_iff, String.isEmpty_iff]

theorem truthy_isArray_iff (o : Option JsonVal) :
    (truthyOpt o = true ∧ isArrayOpt o = true) ↔
      ∃ xs, o = some (.jarr xs) := by
  cases o with
  | none => simp [truthyOpt, isArrayOpt]
  | some v =>
      cases v <;>
        simp [truthyOpt, isArrayOpt, JsonVal.truthy, JsonVal.isArray]

theorem truthy_isNumber_iff (o : Option JsonVal) :
    (truthyOpt o = true ∧ isNumberOpt o = true) ↔
      ∃ n : Int, o = some (.jnum n) ∧ n ≠ 0 := by
  cases o with
  | none => simp [truthyOpt, isNumberOpt]
  | some v =>
      cases v <;>
        simp [truthyOpt, isNumberOpt, JsonVal.truthy, JsonVal.isNumber]

theorem truthyOpt_iff (o : Option JsonVal) :
    truthyOpt o = true ↔ ∃ v, o = some v ∧ v.truthy = true := by
  cases o <;> simp [truthyOpt]

/-- The first volunteer guard passes exactly on `VolunteerFieldsOk`. -/
theorem volunteerGuard_iff (b : VolunteerBody) :
    (!truthyOpt b.name || !isStringOpt b.name || !truthyOpt b.email ||
        !truthyOpt b.contact || !isStringOpt b.contact ||
        !truthyOpt b.skills || !isArrayOpt b.skills) = false ↔
      VolunteerFieldsOk b := by
  rw [VolunteerFieldsOk, ← truthy_isString_iff, ← truthyOpt_iff,
    ← truthy_isString_iff b.contact, ← truthy_isArray_iff]
  simp only [Bool.or_eq_false_iff, Bool.not_eq_false']
  tauto

/-- Complete case analysis of the `POST /volunteers` handler: which of
the three 400 responses or the 201 response is produced, and the
resulting state, as a function of the three spec-level predicates. -/
theorem createVolunteer_cases (s : StoreState) (b : VolunteerBody)
    (freshId : String) (now : Nat) :
    (¬ VolunteerFieldsOk b →
      createVolunteer s b freshId now = (.invalidFields, s)) ∧
    (VolunteerFieldsOk b → ¬ VolunteerEmailOk b →
      createVolunteer s b freshId now = (.invalidEmail, s)) ∧
    (VolunteerFieldsOk b → VolunteerEmailOk b → ¬ VolunteerEmailFresh s b →
      createVolunteer s b freshId now = (.duplicateEmail, s)) ∧
    (VolunteerFieldsOk b → VolunteerEmailOk b → VolunteerEmailFresh s b →
      createVolunteer s b freshId now =
        (.created (mkVolunteer b freshId now),
          { s with volunteers := s.volunteers ++ [mkVolunteer b freshId now] })) := by
  rw [createVolunteer]
  by_cases hf : VolunteerFieldsOk b
  · rw [← volunteerGuard_iff] at hf
    rw [hf]
    simp only [Bool.false_eq_true, if_false]
    by_cases he : VolunteerEmailOk b
    · rw [VolunteerEmailOk] at he
      rw [he]
      simp only [Bool.not_true, Bool.false_eq_true, if_false]
      by_cases hu : VolunteerEmailFresh s b
      · have : (s.volunteers.find? fun v =>
            v.email.jsStrictEq (b.email.getD .jnull)).isSome = false := by
          rw [Bool.eq_false_iff, Ne, Option.isSome_iff_exists]
          rintro ⟨v, hv⟩
          have := List.find?_some hv
          have hmem := List.mem_of_find?_eq_some hv
          rw [hu v hmem] at this
          exact Bool.false_ne_true this
        rw [volunteerGuard_iff] at hf
        refine ⟨fun h => absurd hf h, fun _ h => absurd he h, fun _ _ h => absurd hu h,
          fun _ _ _ => ?_⟩
        rw [this]
        simp only [Bool.false_eq_true, if_false]
        rfl
      · have : (s.volunteers.find? fun v =>
            v.email.jsStrictEq (b.email.getD .jnull)).isSome = true := by
          rw [List.find?_isSome]
          rw [VolunteerEmailFresh] at hu
          push_neg at hu
          obtain ⟨v, hvmem, hv⟩ := hu
          have hvt : v.email.jsStrictEq (b.email.getD .jnull) = true := by
            cases hvb : v.email.jsStrictEq (b.email.getD .jnull)
            · exact absurd hvb hv
            · rfl
          exact ⟨v, hvmem, hvt⟩
        rw [volunteerGuard_iff] at hf
        rw [this]
        exact ⟨fun h => absurd hf h, fun _ h => absurd he h,
          fun _ _ _ => rfl, fun _ _ h => absurd h hu⟩
    · have he' : emailRegexTest
          (JsonVal.jsToString (b.email.getD .jnull)) = false := by
        rw [VolunteerEmailOk] at he
        exact Bool.eq_false_iff.mpr he
      rw [volunteerGuard_iff] at hf
      rw [he']
      exact ⟨fun h => absurd hf h, fun _ _ => rfl,
        fun _ h => absurd h he, fun _ h => absurd h he⟩
  · have hft : (!truthyOpt b.name || !isStringOpt b.name || !truthyOpt b.email ||
        !truthyOpt b.contact || !isStringOpt b.contact ||
        !truthyOpt b.skills || !isArrayOpt b.skills) = true := by
      cases hg : (!truthyOpt b.name || !isStringOpt b.name || !truthyOpt b.email ||
          !truthyOpt b.contact || !isStringOpt b.contact ||
          !truthyOpt b.skills || !isArrayOpt b.skills)
      · exact absurd ((volunteerGuard_iff b).mp hg) hf
      · rfl
    rw [hft]
    simp only [if_true]
    exact ⟨fun _ => by trivial, fun h => absurd h hf, fun h => absurd h hf,
      fun h => absurd h hf⟩

/-! ### Spec-level predicates for the other create handlers -/

/-- What the event guard accepts: `title`, `description`, `location`
and `organizerId` are non-empty strings; `dateTime` is any truthy JSON
value (whether it parses as a date is not examined here). -/
def EventFieldsOk (b : EventBody) : Prop :=
  (∃ t, b.title = some (.jstr t) ∧ t ≠ "") ∧
  (∃ d, b.description = some (.jstr d) ∧ d ≠ "") ∧
  (∃ dt, b.dateTime = some dt ∧ dt.truthy = true) ∧
  (∃ l, b.location = some (.jstr l) ∧ l ≠ "") ∧
  (∃ o, b.organizerId = some (.jstr o) ∧ o ≠ "")

/-- The record the `Event` constructor builds. -/
def mkEvent (dateParse : JsonVal → Option Int) (b : EventBody)
    (freshId : String) (now : Nat) : EventRec :=
  { id := freshId, title := b.title.getD .jnull,
    description := b.description.getD .jnull,
    dateTime := dateParse (b.dateTime.getD .jnull),
    location := b.location.getD .jnull,
    organizerId := b.organizerId.getD .jnull, createdAt := now }

/-- Complete case analysis of the `POST /events` handler. -/
theorem createEvent_cases (dateParse : JsonVal → Option Int) (s : StoreState)
    (b : EventBody) (freshId : String) (now : Nat) :
    (¬ EventFieldsOk b →
      createEvent dateParse s b freshId now = (.invalidFields, s)) ∧
    (EventFieldsOk b →
      createEvent dateParse s b freshId now =
        (.created (mkEvent dateParse b freshId now),
          { s with events := s.events ++ [mkEvent dateParse b freshId now] })) := by
  have hg : (!truthyOpt b.title || !isStringOpt b.title ||
      !truthyOpt b.description || !isStringOpt b.description ||
      !truthyOpt b.dateTime ||
      !truthyOpt b.location || !isStringOpt b.location ||
      !truthyOpt b.organizerId || !isStringOpt b.organizerId) = false ↔
      EventFieldsOk b := by
    rw [EventFieldsOk, ← truthy_isString_iff b.title,
      ← truthy_isString_iff b.description, ← truthyOpt_iff,
      ← truthy_isString_iff b.location, ← truthy_isString_iff b.organizerId]
    simp only [Bool.or_eq_false_iff, Bool.not_eq_false']
    tauto
  rw [createEvent]
  by_cases hf : EventFieldsOk b
  · rw [← hg] at hf
    rw [hf]
    simp only [Bool.false_eq_true, if_false]
    exact ⟨fun h => absurd (hg.mp hf) h, fun _ => rfl⟩
  · have hft : (!truthyOpt b.title || !isStringOpt b.title ||
        !truthyOpt b.description || !isStringOpt b.description ||
        !truthyOpt b.dateTime ||
        !truthyOpt b.location || !isStringOpt b.location ||
        !truthyOpt b.organizerId || !isStringOpt b.organizerId) = true := by
      cases hgg : (!truthyOpt b.title || !isStringOpt b.title ||
          !truthyOpt b.description || !isStringOpt b.description ||
          !truthyOpt b.dateTime ||
          !truthyOpt b.location || !isStringOpt b.location ||
          !truthyOpt b.organizerId || !isStringOpt b.organizerId)
      · exact absurd (hg.mp hgg) hf
      · rfl
    rw [hft]
    simp only [if_true]
    exact ⟨fun _ => by trivial, fun h => absurd h hf⟩

/-- What the registration guard accepts: `eventId`, `volunteerId` and
`status` are non-empty strings. -/
def RegistrationFieldsOk (b : RegistrationBody) : Prop :=
  (∃ e, b.eventId = some (.jstr e) ∧ e ≠ "") ∧
  (∃ v, b.volunteerId = some (.jstr v) ∧ v ≠ "") ∧
  (∃ st, b.status = some (.jstr st) ∧ st ≠ "")

/-- The record the `Registration` constructor builds: `registeredAt` is
the current clock reading and `attendedAt` is `null`. -/
def mkRegistration (b : RegistrationBody) (freshId : String) (now : Nat) :
    Registration :=
  { id := freshId, eventId := b.eventId.getD .jnull,
    volunteerId := b.volunteerId.getD .jnull,
    status := b.status.getD .jnull, registeredAt := now, attendedAt := none }

/-- Complete case analysis of the `POST /registrations` handler. -/
theorem createRegistration_cases (s : StoreState) (b : RegistrationBody)
    (freshId : String) (now : Nat) :
    (¬ RegistrationFieldsOk b →
      createRegistration s b freshId now = (.invalidFields, s)) ∧
    (RegistrationFieldsOk b →
      createRegistration s b freshId now =
        (.created (mkRegistration b freshId now),
          { s with registrations :=
              s.registrations ++ [mkRegistration b freshId now] })) := by
  have hg : (!truthyOpt b.eventId || !isStringOpt b.eventId ||
      !truthyOpt b.volunteerId || !isStringOpt b.volunteerId ||
      !truthyOpt b.status || !isStringOpt b.status) = false ↔
      RegistrationFieldsOk b := by
    rw [RegistrationFieldsOk, ← truthy_isString_iff b.eventId,
      ← truthy_isString_iff b.volunteerId, ← truthy_isString_iff b.status]
    simp only [Bool.or_eq_false_iff, Bool.not_eq_false']
    tauto
  rw [createRegistration]
  by_cases hf : RegistrationFieldsOk b
  · rw [← hg] at hf
    rw [hf]
    simp only [Bool.false_eq_true, if_false]
    exact ⟨fun h => absurd (hg.mp hf) h, fun _ => rfl⟩
  · have hft : (!truthyOpt b.eventId || !isStringOpt b.eventId ||
        !truthyOpt b.volunteerId || !isStringOpt b.volunteerId ||
        !truthyOpt b.status || !isStringOpt b.status) = true := by
      cases hgg : (!truthyOpt b.eventId || !isStringOpt b.eventId ||
          !truthyOpt b.volunteerId || !isStringOpt b.volunteerId ||
          !truthyOpt b.status || !isStringOpt b.status)
      · exact absurd (hg.mp hgg) hf
      · rfl
    rw [hft]
    simp only [if_true]
    exact ⟨fun _ => by trivial, fun h => absurd h hf⟩

/-- What the feedback guard accepts: `volunteerId`, `eventId` and
`feedback` are non-empty strings, `rating` is a nonzero number — the
truthiness test runs before the type test, so the number `0` fails the
guard exactly as an absent field does, while no range condition at all
is imposed on a nonzero rating. -/
def FeedbackFieldsOk (b : FeedbackBody) : Prop :=
  (∃ v, b.volunteerId = some (.jstr v) ∧ v ≠ "") ∧
  (∃ e, b.eventId = some (.jstr e) ∧ e ≠ "") ∧
  (∃ f, b.feedback = some (.jstr f) ∧ f ≠ "") ∧
  (∃ n : Int, b.rating = some (.jnum n) ∧ n ≠ 0)

/-- The record the `Feedback` constructor builds. -/
def mkFeedback (b : FeedbackBody) (freshId : String) (now : Nat) : Feedback :=
  { id := freshId, volunteerId := b.volunteerId.getD .jnull,
    eventId := b.eventId.getD .jnull, feedback := b.feedback.getD .jnull,
    rating := b.rating.getD .jnull, createdAt := now }

/-- Complete case analysis of the `POST /feedbacks` handler. -/
theorem createFeedback_cases (s : StoreState) (b : FeedbackBody)
    (freshId : String) (now : Nat) :
    (¬ FeedbackFieldsOk b →
      createFeedback s b freshId now = (.invalidFields, s)) ∧
    (FeedbackFieldsOk b →
      createFeedback s b freshId now =
        (.created (mkFeedback b freshId now),
          { s with feedbacks := s.feedbacks ++ [mkFeedback b freshId now] })) := by
  have hg : (!truthyOpt b.volunteerId || !isStringOpt b.volunteerId ||
      !truthyOpt b.eventId || !isStringOpt b.eventId ||
      !truthyOpt b.feedback || !isStringOpt b.feedback ||
      !truthyOpt b.rating || !isNumberOpt b.rating) = false ↔
      FeedbackFieldsOk b := by
    rw [FeedbackFieldsOk, ← truthy_isString_iff b.volunteerId,
      ← truthy_isString_iff b.eventId, ← truthy_isString_iff b.feedback,
      ← truthy_isNumber_iff]
    simp only [Bool.or_eq_false_iff, Bool.not_eq_false']
    tauto
  rw [createFeedback]
  by_cases hf : FeedbackFieldsOk b
  · rw [← hg] at hf
    rw [hf]
    simp only [Bool.false_eq_true, if_false]
    exact ⟨fun h => absurd (hg.mp hf) h, fun _ => rfl⟩
  · have hft : (!truthyOpt b.volunteerId || !isStringOpt b.volunteerId ||
        !truthyOpt b.eventId || !isStringOpt b.eventId ||
        !truthyOpt b.feedback || !isStringOpt b.feedback ||
        !truthyOpt b.rating || !isNumberOpt b.rating) = true := by
      cases hgg : (!truthyOpt b.volunteerId || !isStringOpt b.volunteerId ||
          !truthyOpt b.eventId || !isStringOpt b.eventId ||
          !truthyOpt b.feedback || !isStringOpt b.feedback ||
          !truthyOpt b.rating || !isNumberOpt b.rating)
      · exact absurd (hg.mp hgg) hf
      · rfl
    rw [hft]
    simp only [if_true]
    exact ⟨fun _ => by trivial, fun h => absurd h hf⟩

/-! ### The email pattern, read declaratively -/

/-- The pattern `[^\s@]+ @ [^\s@]+ . [^\s@]+`, anchored, exactly as the
specification words it: at least one non-whitespace non-at character,
an at sign, another such run, a dot, a final such run. -/
def EmailSpec (s : String) : Prop :=
  ∃ a b c : List Char,
    s.data = a ++ '@' :: (b ++ '.' :: c) ∧
    a ≠ [] ∧ b ≠ [] ∧ c ≠ [] ∧
    (∀ ch ∈ a, emailChar ch = true) ∧
    (∀ ch ∈ b, emailChar ch = true) ∧
    (∀ ch ∈ c, emailChar ch = true)

theorem dropWhile_head_false {p : Char → Bool} {l : List Char} {x : Char}
    {xs : List Char} (h : l.dropWhile p = x :: xs) : p x = false := by
  induction l with
  | nil => simp [List.dropWhile] at h
  | cons a as ih =>
      rw [List.dropWhile] at h
      cases hp : p a
      · rw [hp] at h
        have h' : a :: as = x :: xs := h
        cases h'
        exact hp
      · rw [hp] at h
        exact ih h

theorem takeWhile_split_at (a r : List Char)
    (ha : ∀ ch ∈ a, ch ≠ '@') :
    (a ++ '@' :: r).takeWhile (fun c => c != '@') = a ∧
    (a ++ '@' :: r).dropWhile (fun c => c != '@') = '@' :: r := by
  induction a with
  | nil => simp [List.takeWhile, List.dropWhile]
  | cons x xs ih =>
      have hx : (x != '@') = true := by
        simp only [bne_iff_ne, ne_eq]
        exact ha x (List.mem_cons_self x xs)
      have ih' := ih fun ch hch => ha ch (List.mem_cons_of_mem x hch)
      constructor
      · rw [List.cons_append, List.takeWhile_cons, hx]
        simp only [if_true, ih'.1]
      · rw [List.cons_append, List.dropWhile_cons, hx]
        simp only [if_true, ih'.2]

/-- The remainder after the at sign matches `[^\s@]+ . [^\s@]+` exactly
when it has a dot that is neither its first nor its last character. -/
theorem interiorDot_iff (r : List Char) :
    ((r.drop 1).dropLast).contains '.' = true ↔
      ∃ b c : List Char, r = b ++ '.' :: c ∧ b ≠ [] ∧ c ≠ [] := by
  constructor
  · intro h
    match r with
    | [] => simp [List.contains] at h
    | r0 :: t =>
        rw [List.drop_one, List.tail_cons, List.contains, List.elem_iff] at h
        rcases List.eq_nil_or_concat t with rfl | ⟨t2, z, rfl⟩
        · simp at h
        · rw [List.concat_eq_append, List.dropLast_concat] at h
          obtain ⟨u, w, huw⟩ := List.append_of_mem h
          subst huw
          refine ⟨r0 :: u, w ++ [z], by simp, by simp, by simp⟩
  · rintro ⟨b, c, rfl, hb, hc⟩
    obtain ⟨x, xs, rfl⟩ := List.exists_cons_of_ne_nil hb
    obtain ⟨y, ys, rfl⟩ := List.exists_cons_of_ne_nil hc
    rw [List.cons_append, List.drop_one, List.tail_cons,
      List.contains, List.elem_iff, List.dropLast_append_cons,
      List.dropLast_cons₂]
    exact List.mem_append_right xs (List.mem_cons_self '.' _)

/-- The executable matcher agrees with the declarative reading of the
pattern. -/
theorem emailRegexTest_iff_spec (s : String) :
    emailRegexTest s = true ↔ EmailSpec s := by
  rw [emailRegexTest, emailMatch]
  constructor
  · intro h
    match hd : s.data.dropWhile (fun c => c != '@') with
    | [] => rw [hd] at h; exact absurd h (by simp)
    | d :: rest =>
        rw [hd] at h
        simp only [Bool.and_eq_true] at h
        obtain ⟨⟨⟨hne, hall⟩, hrest⟩, hdot⟩ := h
        have hd' : d = '@' := by
          have := dropWhile_head_false hd
          simpa using this
        obtain ⟨b, c, hbc, hb, hc⟩ := (interiorDot_iff rest).mp hdot
        subst hd'
        refine ⟨s.data.takeWhile (fun c => c != '@'), b, c, ?_, ?_, hb, hc, ?_, ?_, ?_⟩
        · rw [← hbc, ← hd]
          exact (List.takeWhile_append_dropWhile _ _).symm
        · simpa using hne
        · intro ch hch
          exact List.all_eq_true.mp hall ch hch
        · intro ch hch
          have : ch ∈ rest := by
            rw [hbc]
            exact List.mem_append_left _ hch
          exact List.all_eq_true.mp hrest ch this
        · intro ch hch
          have : ch ∈ rest := by
            rw [hbc]
            exact List.mem_append_right _ (List.mem_cons_of_mem _ hch)
          exact List.all_eq_true.mp hrest ch this
  · rintro ⟨a, b, c, hs, ha, hb, hc, hca, hcb, hcc⟩
    have hnoat : ∀ ch ∈ a, ch ≠ '@' := by
      intro ch hch
      have := hca ch hch
      rw [emailChar, Bool.and_eq_true] at this
      simpa using this.2
    have hsplit := takeWhile_split_at a (b ++ '.' :: c) hnoat
    rw [hs, hsplit.2]
    simp only [hsplit.1]
    have h1 : a.isEmpty = false := by
      cases a
      · exact absurd rfl ha
      · rfl
    have h2 : a.all emailChar = true := List.all_eq_true.mpr hca
    have h3 : (b ++ '.' :: c).all emailChar = true := by
      rw [List.all_eq_true]
      intro ch hch
      rcases List.mem_append.mp hch with hl | hr
      · exact hcb ch hl
      · rcases List.mem_cons.mp hr with rfl | hr'
        · decide
        · exact hcc ch hr'
    have h4 : (((b ++ '.' :: c).drop 1).dropLast).contains '.' = true :=
      (interiorDot_iff _).mpr ⟨b, c, rfl, hb, hc⟩
    rw [h1, h2, h3, h4]
    rfl

/-! ### Write-effect lemmas

Each create handler writes at most its own collection; the exact effect
as a function of the outcome. -/

theorem createVolunteer_write (s : StoreState) (b : VolunteerBody)
    (id : String) (now : Nat) :
    (createVolunteer s b id now).2.events = s.events ∧
    (createVolunteer s b id now).2.registrations = s.registrations ∧
    (createVolunteer s b id now).2.feedbacks = s.feedbacks ∧
    (∀ v, (createVolunteer s b id now).1 = .created v →
      (createVolunteer s b id now).2 =
        { s with volunteers := s.volunteers ++ [v] }) ∧
    ((∀ v, (createVolunteer s b id now).1 ≠ .created v) →
      (createVolunteer s b id now).2 = s) := by
  obtain ⟨h1, h2, h3, h4⟩ := createVolunteer_cases s b id now
  by_cases hf : VolunteerFieldsOk b
  · by_cases he : VolunteerEmailOk b
    · by_cases hu : VolunteerEmailFresh s b
      · rw [h4 hf he hu]
        refine ⟨rfl, rfl, rfl, fun v hv => ?_, fun hno => ?_⟩
        · have hv2 : VolunteerPostResult.created (mkVolunteer b id now) =
              .created v := hv
          injection hv2 with hv3
          subst hv3
          rfl
        · exact absurd rfl (hno _)
      · rw [h3 hf he hu]
        refine ⟨rfl, rfl, rfl, fun v hv => ?_, fun _ => rfl⟩
        exact absurd hv (by simp)
    · rw [h2 hf he]
      refine ⟨rfl, rfl, rfl, fun v hv => ?_, fun _ => rfl⟩
      exact absurd hv (by simp)
  · rw [h1 hf]
    refine ⟨rfl, rfl, rfl, fun v hv => ?_, fun _ => rfl⟩
    exact absurd hv (by simp)

theorem createEvent_write (dp : JsonVal → Option Int) (s : StoreState)
    (b : EventBody) (id : String) (now : Nat) :
    (createEvent dp s b id now).2.volunteers = s.volunteers ∧
    (createEvent dp s b id now).2.registrations = s.registrations ∧
    (createEvent dp s b id now).2.feedbacks = s.feedbacks ∧
    (∀ e, (createEvent dp s b id now).1 = .created e →
      (createEvent dp s b id now).2 = { s with events := s.events ++ [e] }) ∧
    ((∀ e, (createEvent dp s b id now).1 ≠ .created e) →
      (createEvent dp s b id now).2 = s) := by
  obtain ⟨h1, h2⟩ := createEvent_cases dp s b id now
  by_cases hf : EventFieldsOk b
  · rw [h2 hf]
    refine ⟨rfl, rfl, rfl, fun e he => ?_, fun hno => ?_⟩
    · have he2 : EventPostResult.created (mkEvent dp b id now) = .created e := he
      injection he2 with he3
      subst he3
      rfl
    · exact absurd rfl (hno _)
  · rw [h1 hf]
    refine ⟨rfl, rfl, rfl, fun e he => ?_, fun _ => rfl⟩
    exact absurd he (by simp)

theorem createRegistration_write (s : StoreState) (b : RegistrationBody)
    (id : String) (now : Nat) :
    (createRegistration s b id now).2.volunteers = s.volunteers ∧
    (createRegistration s b id now).2.events = s.events ∧
    (createRegistration s b id now).2.feedbacks = s.feedbacks ∧
    (∀ r, (createRegistration s b id now).1 = .created r →
      (createRegistration s b id now).2 =
        { s with registrations := s.registrations ++ [r] }) ∧
    ((∀ r, (createRegistration s b id now).1 ≠ .created r) →
      (createRegistration s b id now).2 = s) := by
  obtain ⟨h1, h2⟩ := createRegistration_cases s b id now
  by_cases hf : RegistrationFieldsOk b
  · rw [h2 hf]
    refine ⟨rfl, rfl, rfl, fun r hr => ?_, fun hno => ?_⟩
    · have hr2 : RegistrationPostResult.created (mkRegistration b id now) =
          .created r := hr
      injection hr2 with hr3
      subst hr3
      rfl
    · exact absurd rfl (hno _)
  · rw [h1 hf]
    refine ⟨rfl, rfl, rfl, fun r hr => ?_, fun _ => rfl⟩
    exact absurd hr (by simp)

theorem createFeedback_write (s : StoreState) (b : FeedbackBody)
    (id : String) (now : Nat) :
    (createFeedback s b id now).2.volunteers = s.volunteers ∧
    (createFeedback s b id now).2.events = s.events ∧
    (createFeedback s b id now).2.registrations = s.registrations ∧
    (∀ f, (createFeedback s b id now).1 = .created f →
      (createFeedback s b id now).2 =
        { s with feedbacks := s.feedbacks ++ [f] }) ∧
    ((∀ f, (createFeedback s b id now).1 ≠ .created f) →
      (createFeedback s b id now).2 = s) := by
  obtain ⟨h1, h2⟩ := createFeedback_cases s b id now
  by_cases hf : FeedbackFieldsOk b
  · rw [h2 hf]
    refine ⟨rfl, rfl, rfl, fun f hf2 => ?_, fun hno => ?_⟩
    · have hf3 : FeedbackPostResult.created (mkFeedback b id now) =
          .created f := hf2
      injection hf3 with hf4
      subst hf4
      rfl
    · exact absurd rfl (hno _)
  · rw [h1 hf]
    refine ⟨rfl, rfl, rfl, fun f hf2 => ?_, fun _ => rfl⟩
    exact absurd hf2 (by simp)

/-! ### The email invariant over reachable states -/

/-- Invariant on the volunteer collection: every stored volunteer whose
email is a string got past the format check, and no two stored
volunteers carry the same string email. (String emails are the only
ones the strict-equality scan can ever match; a stored non-string email
is invisible to it.) -/
def VolunteerEmailInv (vs : List Volunteer) : Prop :=
  (∀ v ∈ vs, ∀ e, v.email = .jstr e → emailRegexTest e = true) ∧
  List.Pairwise (fun v w => ∀ e, v.email = .jstr e → w.email ≠ .jstr e) vs

theorem jsToString_jstr (e : String) : (JsonVal.jstr e).jsToString = e := by
  simp [JsonVal.jsToString]

theorem jsStrictEq_jstr_jstr (a b : String) :
    (JsonVal.jstr a).jsStrictEq (.jstr b) = (a == b) := by
  simp [JsonVal.jsStrictEq]

/-- Every reachable state satisfies the email invariant. -/
theorem reachable_emailInv {s : StoreState} (h : Reachable s) :
    VolunteerEmailInv s.volunteers := by
  induction h with
  | empty => exact ⟨by simp [emptyState], by simp [emptyState]⟩
  | stepVolunteer s b id now _ ih =>
      obtain ⟨h1, h2, h3, h4⟩ := createVolunteer_cases s b id now
      by_cases hf : VolunteerFieldsOk b
      · by_cases he : VolunteerEmailOk b
        · by_cases hu : VolunteerEmailFresh s b
          · rw [h4 hf he hu]
            obtain ⟨ihreg, ihpw⟩ := ih
            constructor
            · intro v hv e hve
              rcases List.mem_append.mp hv with hvold | hvnew
              · exact ihreg v hvold e hve
              · have hv2 : v = mkVolunteer b id now := by simpa using hvnew
                subst hv2
                rw [VolunteerEmailOk] at he
                have hraw : b.email.getD .jnull = .jstr e := hve
                rw [hraw, jsToString_jstr] at he
                exact he
            · rw [List.pairwise_append]
              refine ⟨ihpw, List.pairwise_singleton _ _, ?_⟩
              intro v hvold w hwnew e hve
              have hw : w = mkVolunteer b id now := by simpa using hwnew
              subst hw
              intro hwe
              have hraw : b.email.getD .jnull = .jstr e := hwe
              have hcontra := hu v hvold
              rw [hraw, hve, jsStrictEq_jstr_jstr] at hcontra
              simp at hcontra
          · rw [h3 hf he hu]
            exact ih
        · rw [h2 hf he]
          exact ih
      · rw [h1 hf]
        exact ih
  | stepEvent dp s b id now _ ih =>
      rw [(createEvent_write dp s b id now).1]
      exact ih
  | stepRegistration s b id now _ ih =>
      rw [(createRegistration_write s b id now).1]
      exact ih
  | stepFeedback s b id now _ ih =>
      rw [(createFeedback_write s b id now).1]
      exact ih

/-! ### Concrete body builders -/

/-- A volunteer-creation body whose four fields are a name string, an
email string, a contact string and a skills array. -/
def volBody (name email contact : String) (skills : List JsonVal) :
    VolunteerBody :=
  { name := some (.jstr name), email := some (.jstr email),
    contact := some (.jstr contact), skills := some (.jarr skills) }

/-- An event-creation body with string fields and an arbitrary JSON
value in the dateTime slot. -/
def evBody (title desc loc org : String) (dt : JsonVal) : EventBody :=
  { title := some (.jstr title), description := some (.jstr desc),
    dateTime := some dt, location := some (.jstr loc),
    organizerId := some (.jstr org) }

/-- A registration-creation body with three string fields. -/
def regBody (eid vid st : String) : RegistrationBody :=
  { eventId := some (.jstr eid), volunteerId := some (.jstr vid),
    status := some (.jstr st) }

/-- A feedback-creation body with three string fields and an arbitrary
rating slot. -/
def fbBody (vid eid fb : String) (rating : Option JsonVal) : FeedbackBody :=
  { volunteerId := some (.jstr vid), eventId := some (.jstr eid),
    feedback := some (.jstr fb), rating := rating }

/-- Looking up a freshly appended volunteer by its id finds it, provided
no earlier record carries that id. -/
theorem find?_id_append (vs : List Volunteer) (v : Volunteer)
    (hfresh : ∀ w ∈ vs, w.id ≠ v.id) :
    (vs ++ [v]).find? (fun w => w.id == v.id) = some v := by
  rw [List.find?_append]
  have h1 : vs.find? (fun w => w.id == v.id) = none := by
    rw [List.find?_eq_none]
    intro w hw
    simp only [beq_iff_eq]
    exact hfresh w hw
  rw [h1]
  simp [List.find?]

/-! ### Claim C1: the email-uniqueness invariant -/

/-- A volunteer-creation body whose email field is a JSON array holding
one well-formed email string. Every guard lets it through: an array is
truthy, its string coercion `x@y.zz` matches the pattern, and strict
equality between the freshly parsed array and any stored value is
reference comparison, hence false. -/
def arrEmailBody : VolunteerBody :=
  { name := some (.jstr "Ann"), email := some (.jarr [.jstr "x@y.zz"]),
    contact := some (.jstr "555"), skills := some (.jarr []) }

/-- The store after two successful volunteer creations that both carry
the array email. -/
def dupEmailState : StoreState :=
  (createVolunteer (createVolunteer emptyState arrEmailBody "id-1" 0).2
    arrEmailBody "id-2" 1).2

/-- C1 is false as stated: a state reachable from the empty store by the
exposed operations holds two distinct volunteer records (ids `id-1` and
`id-2`) with the same email value, the array `["x@y.zz"]`. The email
field is never type-checked, an array passes the format test through
string coercion, and the duplicate scan compares a fresh array by
reference, so both creations succeed. -/
theorem volunteer_email_unique_counterexample :
    Reachable dupEmailState ∧
    dupEmailState.volunteers.map Volunteer.id = ["id-1", "id-2"] ∧
    dupEmailState.volunteers.map Volunteer.email =
      [.jarr [.jstr "x@y.zz"], .jarr [.jstr "x@y.zz"]] :=
  ⟨Reachable.stepVolunteer _ arrEmailBody "id-2" 1
      (Reachable.stepVolunteer _ arrEmailBody "id-1" 0 Reachable.empty),
    rfl, rfl⟩

/-- C1 (amended): in every reachable state, no two stored volunteer
records carry the same string email — string emails are the only values
the strict-equality duplicate scan can match, and records whose email is
not a string (such as an array) escape the invariant. Creating a
volunteer whose string email equals the string email of an
already-stored volunteer is rejected with a 400 conflict error and the
state, in particular the volunteer collection, is unchanged. -/
theorem volunteer_email_unique (s : StoreState) (h : Reachable s)
    (b : VolunteerBody) (freshId : String) (now : Nat) (v : Volunteer)
    (e : String) (hv : v ∈ s.volunteers) (hve : v.email = .jstr e)
    (hb : VolunteerFieldsOk b) (hbe : b.email = some (.jstr e)) :
    List.Pairwise
      (fun v1 v2 => ∀ e0, v1.email = .jstr e0 → v2.email ≠ .jstr e0)
      s.volunteers ∧
    createVolunteer s b freshId now = (.duplicateEmail, s) ∧
    VolunteerPostResult.duplicateEmail.status = 400 := by
  obtain ⟨hreg, hpw⟩ := reachable_emailInv h
  refine ⟨hpw, ?_, rfl⟩
  have he : VolunteerEmailOk b := by
    rw [VolunteerEmailOk, hbe]
    show emailRegexTest (JsonVal.jstr e).jsToString = true
    rw [jsToString_jstr]
    exact hreg v hv e hve
  have hu : ¬ VolunteerEmailFresh s b := by
    intro hfresh
    have := hfresh v hv
    rw [hbe] at this
    have h2 : v.email.jsStrictEq (.jstr e) = false := this
    rw [hve, jsStrictEq_jstr_jstr] at h2
    simp at h2
  exact (createVolunteer_cases s b freshId now).2.2.1 hb he hu

/-- Witness for C1: with `ann@x.com` stored, a second creation carrying
the same email string is rejected and the store is unchanged. -/
theorem volunteer_email_unique_witness :
    createVolunteer
        (createVolunteer emptyState (volBody "Ann" "ann@x.com" "555" []) "id-1" 0).2
        (volBody "Bob" "ann@x.com" "777" []) "id-2" 1 =
      (.duplicateEmail,
        (createVolunteer emptyState (volBody "Ann" "ann@x.com" "555" []) "id-1" 0).2) :=
  (volunteer_email_unique _
    (Reachable.stepVolunteer _ (volBody "Ann" "ann@x.com" "555" []) "id-1" 0
      Reachable.empty)
    (volBody "Bob" "ann@x.com" "777" []) "id-2" 1
    (mkVolunteer (volBody "Ann" "ann@x.com" "555" []) "id-1" 0) "ann@x.com"
    (List.mem_singleton.mpr rfl) rfl
    ⟨⟨"Bob", rfl, by decide⟩, ⟨.jstr "ann@x.com", rfl, by decide⟩,
      ⟨"777", rfl, by decide⟩, ⟨[], rfl⟩⟩ rfl).2.1

/-! ### Claim C2: validation order of volunteer creation -/

/-- A volunteer-creation body whose email field is the number 42: not
text, but truthy. -/
def numEmailBody : VolunteerBody :=
  { name := some (.jstr "Ann"), email := some (.jnum 42),
    contact := some (.jstr "555"), skills := some (.jarr []) }

/-- C2 is false as stated: the first check does not require the email to
be text. A request whose email is the number 42 (all other fields
well-shaped) passes the first guard — the handler answers with the
email-format error of the second check, not the field-shape error the
claim assigns to a request whose email is not non-empty text. -/
theorem volunteer_validation_order_counterexample :
    createVolunteer emptyState numEmailBody "id-1" 0 =
      (.invalidEmail, emptyState) ∧
    numEmailBody.email.map JsonVal.isString = some false ∧
    VolunteerPostResult.invalidEmail ≠ .invalidFields :=
  ⟨rfl, rfl, by simp⟩

/-- C2 (amended): volunteer-creation validation runs in a fixed order,
each step failing fast with a distinct 400 error: first, name and
contact are non-empty text, email is present and truthy (its type is
not checked), skills is a sequence (empty accepted); second, the string
coercion of the email matches the format pattern; third, no stored
volunteer has a strictly equal email. A request failing an earlier
check gets that error even if later checks would also fail, and on
every failure the state is unchanged, so no record is stored. -/
theorem volunteer_validation_order (s : StoreState) (b : VolunteerBody)
    (freshId : String) (now : Nat) :
    (¬ VolunteerFieldsOk b →
      createVolunteer s b freshId now = (.invalidFields, s)) ∧
    (VolunteerFieldsOk b → ¬ VolunteerEmailOk b →
      createVolunteer s b freshId now = (.invalidEmail, s)) ∧
    (VolunteerFieldsOk b → VolunteerEmailOk b → ¬ VolunteerEmailFresh s b →
      createVolunteer s b freshId now = (.duplicateEmail, s)) ∧
    (VolunteerFieldsOk b → VolunteerEmailOk b → VolunteerEmailFresh s b →
      createVolunteer s b freshId now =
        (.created (mkVolunteer b freshId now),
          { s with volunteers := s.volunteers ++ [mkVolunteer b freshId now] })) ∧
    VolunteerPostResult.invalidFields.status = 400 ∧
    VolunteerPostResult.invalidEmail.status = 400 ∧
    VolunteerPostResult.duplicateEmail.status = 400 := by
  obtain ⟨h1, h2, h3, h4⟩ := createVolunteer_cases s b freshId now
  exact ⟨h1, h2, h3, h4, rfl, rfl, rfl⟩

/-- Witness for C2 (amended): a well-shaped body with a malformed email
string fails the second check, with the store untouched. -/
theorem volunteer_validation_order_witness :
    createVolunteer emptyState (volBody "Ann" "nope" "555" []) "id-1" 0 =
      (.invalidEmail, emptyState) :=
  (volunteer_validation_order emptyState (volBody "Ann" "nope" "555" [])
      "id-1" 0).2.1
    ⟨⟨"Ann", rfl, by decide⟩, ⟨.jstr "nope", rfl, by decide⟩,
      ⟨"555", rfl, by decide⟩, ⟨[], rfl⟩⟩
    (fun he => by rw [VolunteerEmailOk] at he; exact absurd he (by decide))

/-! ### Claim C3: the email-format criterion -/

/-- C3: with the other checks satisfied, a volunteer-creation request
carrying a string email is accepted exactly when the email matches the
pattern (stated declaratively as `EmailSpec` and proved equivalent to
the executable test); concretely, `not-an-email` draws the 400
invalid-format error and `a@b.co` is accepted. -/
theorem email_format_criterion :
    (∀ s : String, emailRegexTest s = true ↔ EmailSpec s) ∧
    (∀ (st : StoreState) (b : VolunteerBody) (freshId : String) (now : Nat)
        (e : String),
      VolunteerFieldsOk b → b.email = some (.jstr e) →
      VolunteerEmailFresh st b →
      ((∃ v, (createVolunteer st b freshId now).1 = .created v) ↔
        EmailSpec e)) ∧
    createVolunteer emptyState (volBody "Ann" "not-an-email" "555" []) "id-1" 0 =
      (.invalidEmail, emptyState) ∧
    VolunteerPostResult.invalidEmail.status = 400 ∧
    (∃ v, (createVolunteer emptyState (volBody "Ann" "a@b.co" "555" []) "id-1" 0).1
      = .created v) := by
  refine ⟨emailRegexTest_iff_spec, ?_, rfl, rfl, ⟨_, rfl⟩⟩
  intro st b freshId now e hb hbe hfresh
  obtain ⟨h1, h2, h3, h4⟩ := createVolunteer_cases st b freshId now
  have hok : VolunteerEmailOk b ↔ emailRegexTest e = true := by
    rw [VolunteerEmailOk, hbe]
    show emailRegexTest (JsonVal.jstr e).jsToString = true ↔ _
    rw [jsToString_jstr]
  constructor
  · rintro ⟨v, hv⟩
    by_cases he : VolunteerEmailOk b
    · exact (emailRegexTest_iff_spec e).mp (hok.mp he)
    · rw [h2 hb he] at hv
      exact absurd hv (by simp)
  · intro hspec
    have he : VolunteerEmailOk b := hok.mpr ((emailRegexTest_iff_spec e).mpr hspec)
    rw [h4 hb he hfresh]
    exact ⟨mkVolunteer b freshId now, rfl⟩

/-- Witness for C3: the criterion applied at `a@b.co` on the empty
store, together with the declarative match it certifies. -/
theorem email_format_criterion_witness :
    (∃ v, (createVolunteer emptyState (volBody "Zoe" "a@b.co" "000" []) "id-7" 7).1
      = .created v) ∧ EmailSpec "a@b.co" := by
  have hspec : EmailSpec "a@b.co" :=
    (email_format_criterion.1 "a@b.co").mp (by decide)
  refine ⟨?_, hspec⟩
  exact (email_format_criterion.2.1 emptyState (volBody "Zoe" "a@b.co" "000" [])
    "id-7" 7 "a@b.co"
    ⟨⟨"Zoe", rfl, by decide⟩, ⟨.jstr "a@b.co", rfl, by decide⟩,
      ⟨"000", rfl, by decide⟩, ⟨[], rfl⟩⟩ rfl
    (by intro v hv; simp [emptyState] at hv)).mpr hspec

/-! ### Claim C4: lookup by id is total and side-effect free -/

/-- C4: for every id, `GET /volunteers/:id` modifies nothing and either
returns a stored record with that id under status 200 or answers with
the explicit 404 result — the absent case is an ordinary return value,
not an exception; and looking up the id of a freshly created volunteer
returns exactly that record. -/
theorem get_volunteer_total (s : StoreState) (id : String) :
    (getVolunteer s id).2 = s ∧
    ((∃ v ∈ s.volunteers, v.id = id) →
      ∃ v, getVolunteer s id = (.found v, s) ∧ v.id = id ∧
        v ∈ s.volunteers ∧ (VolunteerGetResult.found v).status = 200) ∧
    ((∀ v ∈ s.volunteers, v.id ≠ id) →
      getVolunteer s id = (.notFound, s) ∧
      VolunteerGetResult.notFound.status = 404) ∧
    (∀ (b : VolunteerBody) (freshId : String) (now : Nat) (v : Volunteer),
      (createVolunteer s b freshId now).1 = .created v →
      (∀ w ∈ s.volunteers, w.id ≠ freshId) →
      getVolunteer (createVolunteer s b freshId now).2 v.id =
        (.found v, (createVolunteer s b freshId now).2)) := by
  refine ⟨?_, ?_, ?_, ?_⟩
  · rw [getVolunteer]
    cases s.volunteers.find? (fun v => v.id == id) <;> rfl
  · rintro ⟨v, hv, hvid⟩
    have hsome : (s.volunteers.find? (fun w => w.id == id)).isSome = true := by
      rw [List.find?_isSome]
      exact ⟨v, hv, by simp [hvid]⟩
    obtain ⟨w, hw⟩ := Option.isSome_iff_exists.mp hsome
    refine ⟨w, ?_, ?_, List.mem_of_find?_eq_some hw, rfl⟩
    · rw [getVolunteer, hw]
    · have := List.find?_some hw
      simpa using this
  · intro habs
    have hnone : s.volunteers.find? (fun w => w.id == id) = none := by
      rw [List.find?_eq_none]
      intro w hw
      simp only [beq_iff_eq]
      exact habs w hw
    exact ⟨by rw [getVolunteer, hnone], rfl⟩
  · intro b freshId now v hcr hfresh
    obtain ⟨_, _, _, hwr, _⟩ := createVolunteer_write s b freshId now
    have hst := hwr v hcr
    have hvid : v.id = freshId := by
      obtain ⟨h1, h2, h3, h4⟩ := createVolunteer_cases s b freshId now
      by_cases hf : VolunteerFieldsOk b
      · by_cases he : VolunteerEmailOk b
        · by_cases hu : VolunteerEmailFresh s b
          · rw [h4 hf he hu] at hcr
            have : VolunteerPostResult.created (mkVolunteer b freshId now) =
                .created v := hcr
            injection this with hv2
            rw [← hv2]
            rfl
          · rw [h3 hf he hu] at hcr
            exact absurd hcr (by simp)
        · rw [h2 hf he] at hcr
          exact absurd hcr (by simp)
      · rw [h1 hf] at hcr
        exact absurd hcr (by simp)
    rw [hst, getVolunteer]
    have : (s.volunteers ++ [v]).find? (fun w => w.id == v.id) = some v :=
      find?_id_append s.volunteers v (fun w hw => by rw [hvid]; exact hfresh w hw)
    simp only [this]

/-- Witness for C4: a lookup on the empty store answers 404, and the
freshly created `id-1` volunteer is returned by its own lookup. -/
theorem get_volunteer_total_witness :
    getVolunteer emptyState "missing-id" = (.notFound, emptyState) ∧
    getVolunteer
        (createVolunteer emptyState (volBody "Ann" "ann@x.com" "555" []) "id-1" 0).2
        "id-1" =
      (.found (mkVolunteer (volBody "Ann" "ann@x.com" "555" []) "id-1" 0),
        (createVolunteer emptyState (volBody "Ann" "ann@x.com" "555" []) "id-1" 0).2) := by
  constructor
  · exact ((get_volunteer_total emptyState "missing-id").2.2.1
      (by simp [emptyState])).1
  · exact (get_volunteer_total emptyState "id-1").2.2.2
      (volBody "Ann" "ann@x.com" "555" []) "id-1" 0
      (mkVolunteer (volBody "Ann" "ann@x.com" "555" []) "id-1" 0) rfl
      (by simp [emptyState])

/-! ### Claim C5: registration creation checks nothing but shapes -/

/-- C5: when eventId, volunteerId and status are non-empty text, the
registration is created with 201 against any store — no lookup of the
referenced event or volunteer happens, and any status string is taken
verbatim; the record always carries `attendedAt = null` and
`registeredAt` equal to the in-request clock reading, hence no earlier
than any request start time at or before it. -/
theorem registration_creation_unchecked (s : StoreState)
    (eid vid st : String) (he : eid ≠ "") (hv : vid ≠ "") (hs : st ≠ "")
    (freshId : String) (now : Nat) :
    ∃ r, createRegistration s (regBody eid vid st) freshId now =
        (.created r, { s with registrations := s.registrations ++ [r] }) ∧
      (RegistrationPostResult.created r).status = 201 ∧
      r.attendedAt = none ∧ r.registeredAt = now ∧
      r.eventId = .jstr eid ∧ r.volunteerId = .jstr vid ∧
      r.status = .jstr st ∧
      ∀ t0 : Nat, t0 ≤ now → t0 ≤ r.registeredAt := by
  refine ⟨mkRegistration (regBody eid vid st) freshId now, ?_, rfl, rfl, rfl,
    rfl, rfl, rfl, fun t0 ht => ht⟩
  exact (createRegistration_cases s (regBody eid vid st) freshId now).2
    ⟨⟨eid, rfl, he⟩, ⟨vid, rfl, hv⟩, ⟨st, rfl, hs⟩⟩

/-- Witness for C5: a registration whose ids reference nothing (the
store is empty) and whose status is outside the conceptual enumeration
is still created, with a null `attendedAt`. -/
theorem registration_creation_unchecked_witness :
    0 ≤ 5 ∧ ∃ r, createRegistration emptyState
        (regBody "no-such-event" "no-such-volunteer" "Banana") "id-1" 5 =
        (.created r,
          { emptyState with registrations := emptyState.registrations ++ [r] }) ∧
      (RegistrationPostResult.created r).status = 201 ∧
      r.attendedAt = none ∧ r.registeredAt = 5 ∧
      r.eventId = .jstr "no-such-event" ∧
      r.volunteerId = .jstr "no-such-volunteer" ∧
      r.status = .jstr "Banana" ∧
      ∀ t0 : Nat, t0 ≤ 5 → t0 ≤ r.registeredAt :=
  ⟨by decide, registration_creation_unchecked emptyState
    "no-such-event" "no-such-volunteer" "Banana"
    (by decide) (by decide) (by decide) "id-1" 5⟩

/-! ### Claim C6: feedback rating is checked by truthiness only -/

/-- C6: feedback presence checks are truthiness tests, so a request with
rating 0 (all other fields valid) is rejected with the same 400
validation error as a request with no rating at all, and in both cases
no feedback record is stored; the 1 to 5 range is never examined, so
every nonzero integer rating — 6 and -1 included — is accepted. -/
theorem feedback_rating_truthiness (s : StoreState) (vid eid fb : String)
    (hv : vid ≠ "") (he : eid ≠ "") (hf : fb ≠ "")
    (freshId : String) (now : Nat) :
    createFeedback s (fbBody vid eid fb (some (.jnum 0))) freshId now =
      (.invalidFields, s) ∧
    createFeedback s (fbBody vid eid fb none) freshId now =
      (.invalidFields, s) ∧
    FeedbackPostResult.invalidFields.status = 400 ∧
    (∀ n : Int, n ≠ 0 →
      ∃ f, createFeedback s (fbBody vid eid fb (some (.jnum n))) freshId now =
          (.created f, { s with feedbacks := s.feedbacks ++ [f] }) ∧
        f.rating = .jnum n ∧ (FeedbackPostResult.created f).status = 201) := by
  refine ⟨?_, ?_, rfl, ?_⟩
  · refine (createFeedback_cases s _ freshId now).1 ?_
    rintro ⟨-, -, -, n, hn, hn0⟩
    simp [fbBody] at hn
    exact hn0 hn.symm
  · refine (createFeedback_cases s _ freshId now).1 ?_
    rintro ⟨-, -, -, n, hn, -⟩
    simp [fbBody] at hn
  · intro n hn
    refine ⟨mkFeedback (fbBody vid eid fb (some (.jnum n))) freshId now, ?_, rfl, rfl⟩
    exact (createFeedback_cases s _ freshId now).2
      ⟨⟨vid, rfl, hv⟩, ⟨eid, rfl, he⟩, ⟨fb, rfl, hf⟩, ⟨n, rfl, hn⟩⟩

/-- Witness for C6: ratings 0 and missing are rejected on the empty
store, ratings 6 and -1 are accepted. -/
theorem feedback_rating_truthiness_witness :
    (createFeedback emptyState (fbBody "v1" "e1" "great" (some (.jnum 0)))
        "id-1" 0 = (.invalidFields, emptyState) ∧
      createFeedback emptyState (fbBody "v1" "e1" "great" none) "id-1" 0 =
        (.invalidFields, emptyState)) ∧
    (∃ f, createFeedback emptyState (fbBody "v1" "e1" "great" (some (.jnum 6)))
        "id-1" 0 =
        (.created f, { emptyState with feedbacks := emptyState.feedbacks ++ [f] }) ∧
      f.rating = .jnum 6 ∧ (FeedbackPostResult.created f).status = 201) ∧
    (∃ f, createFeedback emptyState
        (fbBody "v1" "e1" "great" (some (.jnum (-1)))) "id-1" 0 =
        (.created f, { emptyState with feedbacks := emptyState.feedbacks ++ [f] }) ∧
      f.rating = .jnum (-1) ∧ (FeedbackPostResult.created f).status = 201) := by
  obtain ⟨hz, hm, -, hn⟩ := feedback_rating_truthiness emptyState "v1" "e1" "great"
    (by decide) (by decide) (by decide) "id-1" 0
  exact ⟨⟨hz, hm⟩, hn 6 (by decide), hn (-1) (by decide)⟩

/-! ### Claim C7: event creation accepts unparseable dates -/

/-- C7: an event-creation request whose fields are present and of the
required shapes succeeds with 201 for every behavior of the date parser:
the stored dateTime is whatever `new Date` produced from the raw value —
the invalid-date marker included — because validation only tests the raw
field for truthiness, never that parsing succeeds. -/
theorem event_creation_invalid_date (dateParse : JsonVal → Option Int)
    (s : StoreState) (title desc loc org : String) (dt : JsonVal)
    (ht : title ≠ "") (hd : desc ≠ "") (hl : loc ≠ "") (ho : org ≠ "")
    (hdt : dt.truthy = true) (freshId : String) (now : Nat) :
    ∃ e, createEvent dateParse s (evBody title desc loc org dt) freshId now =
        (.created e, { s with events := s.events ++ [e] }) ∧
      (EventPostResult.created e).status = 201 ∧
      e.dateTime = dateParse dt ∧
      (dateParse dt = none → e.dateTime = none) := by
  refine ⟨mkEvent dateParse (evBody title desc loc org dt) freshId now, ?_,
    rfl, rfl, fun h => h⟩
  exact (createEvent_cases dateParse s _ freshId now).2
    ⟨⟨title, rfl, ht⟩, ⟨desc, rfl, hd⟩, ⟨dt, rfl, hdt⟩,
      ⟨loc, rfl, hl⟩, ⟨org, rfl, ho⟩⟩

/-- Witness for C7: with a parser that rejects the supplied value (as
`new Date("not-a-date")` does), creation still returns 201 and stores
the invalid-date marker. -/
theorem event_creation_invalid_date_witness :
    ∃ e, createEvent (fun _ => none) emptyState
        (evBody "Gala" "Fun" "Hall" "org-1" (.jstr "not-a-date")) "id-1" 0 =
        (.created e, { emptyState with events := emptyState.events ++ [e] }) ∧
      (EventPostResult.created e).status = 201 ∧
      e.dateTime = (fun _ => none : JsonVal → Option Int) (.jstr "not-a-date") ∧
      ((fun _ => none : JsonVal → Option Int) (.jstr "not-a-date") = none →
        e.dateTime = none) :=
  event_creation_invalid_date (fun _ => none) emptyState
    "Gala" "Fun" "Hall" "org-1" (.jstr "not-a-date")
    (by decide) (by decide) (by decide) (by decide) (by decide) "id-1" 0

/-! ### Claim C8: round-trip of created records -/

/-- Modelled from the spec: the JavaScript `new Date(value)` conversion
is an external runtime capability, not code of this repository; the
specification fixes only that an unparseable value yields a timestamp
representing invalid, which this instantiation of the abstract parse
parameter exhibits at every input. -/
def unparseableDate : JsonVal → Option Int := fun _ => none

/-- C8 is false as stated for events: the dateTime supplied in the
request does not appear unchanged in the created record — the record
stores the parsed `Date`, here the invalid-date marker produced from the
text `not-a-date`, although dateTime is neither the generated id nor a
creation timestamp field. -/
theorem roundtrip_counterexample :
    (createEvent unparseableDate emptyState
        (evBody "Gala" "Fun" "Hall" "org-1" (.jstr "not-a-date")) "id-1" 0).1 =
      .created (mkEvent unparseableDate
        (evBody "Gala" "Fun" "Hall" "org-1" (.jstr "not-a-date")) "id-1" 0) ∧
    (mkEvent unparseableDate
        (evBody "Gala" "Fun" "Hall" "org-1" (.jstr "not-a-date")) "id-1" 0).dateTime
      = none ∧
    (evBody "Gala" "Fun" "Hall" "org-1" (.jstr "not-a-date")).dateTime =
      some (.jstr "not-a-date") :=
  ⟨rfl, rfl, rfl⟩

/-- C8 (amended): for every valid create request of any of the four
entities, each supplied field appears unchanged in the created record —
apart from the generated id, the creation timestamp fields, and the
event dateTime, which is stored as the parse of the supplied value
rather than the value itself — and the created record is in the
collection returned by the list endpoint (and, for volunteers, is the
record returned by lookup on its fresh id). -/
theorem roundtrip_amended (s : StoreState) (freshId : String) (now : Nat) :
    (∀ b : VolunteerBody, VolunteerFieldsOk b → VolunteerEmailOk b →
      VolunteerEmailFresh s b →
      ∃ v, (createVolunteer s b freshId now).1 = .created v ∧
        v.name = b.name.getD .jnull ∧ v.email = b.email.getD .jnull ∧
        v.contact = b.contact.getD .jnull ∧ v.skills = b.skills.getD .jnull ∧
        v ∈ (listVolunteers (createVolunteer s b freshId now).2).1 ∧
        ((∀ w ∈ s.volunteers, w.id ≠ freshId) →
          getVolunteer (createVolunteer s b freshId now).2 v.id =
            (.found v, (createVolunteer s b freshId now).2))) ∧
    (∀ (dp : JsonVal → Option Int) (b : EventBody), EventFieldsOk b →
      ∃ e, (createEvent dp s b freshId now).1 = .created e ∧
        e.title = b.title.getD .jnull ∧
        e.description = b.description.getD .jnull ∧
        e.location = b.location.getD .jnull ∧
        e.organizerId = b.organizerId.getD .jnull ∧
        e.dateTime = dp (b.dateTime.getD .jnull) ∧
        e ∈ (listEvents (createEvent dp s b freshId now).2).1) ∧
    (∀ b : RegistrationBody, RegistrationFieldsOk b →
      ∃ r, (createRegistration s b freshId now).1 = .created r ∧
        r.eventId = b.eventId.getD .jnull ∧
        r.volunteerId = b.volunteerId.getD .jnull ∧
        r.status = b.status.getD .jnull ∧
        r ∈ (listRegistrations (createRegistration s b freshId now).2).1) ∧
    (∀ b : FeedbackBody, FeedbackFieldsOk b →
      ∃ f, (createFeedback s b freshId now).1 = .created f ∧
        f.volunteerId = b.volunteerId.getD .jnull ∧
        f.eventId = b.eventId.getD .jnull ∧
        f.feedback = b.feedback.getD .jnull ∧
        f.rating = b.rating.getD .jnull ∧
        f ∈ (listFeedbacks (createFeedback s b freshId now).2).1) := by
  refine ⟨?_, ?_, ?_, ?_⟩
  · intro b hf he hu
    have hres := (createVolunteer_cases s b freshId now).2.2.2 hf he hu
    refine ⟨mkVolunteer b freshId now, by rw [hres], rfl, rfl, rfl, rfl, ?_, ?_⟩
    · rw [hres]
      exact List.mem_append_right _ (List.mem_singleton.mpr rfl)
    · intro hfr
      rw [hres, getVolunteer]
      have hfind : (s.volunteers ++ [mkVolunteer b freshId now]).find?
          (fun w => w.id == (mkVolunteer b freshId now).id) =
            some (mkVolunteer b freshId now) :=
        find?_id_append _ _ (fun w hw => hfr w hw)
      simp only [hfind]
  · intro dp b hf
    have hres := (createEvent_cases dp s b freshId now).2 hf
    refine ⟨mkEvent dp b freshId now, by rw [hres], rfl, rfl, rfl, rfl, rfl, ?_⟩
    rw [hres]
    exact List.mem_append_right _ (List.mem_singleton.mpr rfl)
  · intro b hf
    have hres := (createRegistration_cases s b freshId now).2 hf
    refine ⟨mkRegistration b freshId now, by rw [hres], rfl, rfl, rfl, ?_⟩
    rw [hres]
    exact List.mem_append_right _ (List.mem_singleton.mpr rfl)
  · intro b hf
    have hres := (createFeedback_cases s b freshId now).2 hf
    refine ⟨mkFeedback b freshId now, by rw [hres], rfl, rfl, rfl, rfl, ?_⟩
    rw [hres]
    exact List.mem_append_right _ (List.mem_singleton.mpr rfl)

/-- Witness for C8 (amended): the volunteer clause applied on the empty
store to the concrete body of the specification scenario. -/
theorem roundtrip_amended_witness :
    ∃ v, (createVolunteer emptyState
        (volBody "Ann" "ann@x.com" "555" [.jstr "first-aid"]) "id-1" 0).1 =
        .created v ∧
      v.name = .jstr "Ann" ∧ v.email = .jstr "ann@x.com" ∧
      v.contact = .jstr "555" ∧ v.skills = .jarr [.jstr "first-aid"] ∧
      v ∈ (listVolunteers (createVolunteer emptyState
        (volBody "Ann" "ann@x.com" "555" [.jstr "first-aid"]) "id-1" 0).2).1 := by
  obtain ⟨v, h1, h2, h3, h4, h5, h6, -⟩ :=
    (roundtrip_amended emptyState "id-1" 0).1
      (volBody "Ann" "ann@x.com" "555" [.jstr "first-aid"])
      ⟨⟨"Ann", rfl, by decide⟩, ⟨.jstr "ann@x.com", rfl, by decide⟩,
        ⟨"555", rfl, by decide⟩, ⟨[.jstr "first-aid"], rfl⟩⟩
      (by rw [VolunteerEmailOk]; decide)
      (by intro w hw; simp [emptyState] at hw)
  exact ⟨v, h1, h2, h3, h4, h5, h6⟩

/-! ### Claim C9: frame and atomicity -/

/-- C9: every operation touches only its own collection — a successful
create appends exactly one record to its own collection and leaves the
other three unchanged (registration creation modifies neither the event
nor the volunteer collection), every 400 outcome leaves all four
collections unchanged, and the lookup and list handlers never change
the state at all. -/
theorem frame_isolation (s : StoreState) :
    (∀ (b : VolunteerBody) (freshId : String) (now : Nat),
      (createVolunteer s b freshId now).2.events = s.events ∧
      (createVolunteer s b freshId now).2.registrations = s.registrations ∧
      (createVolunteer s b freshId now).2.feedbacks = s.feedbacks ∧
      (∀ v, (createVolunteer s b freshId now).1 = .created v →
        (createVolunteer s b freshId now).2 =
          { s with volunteers := s.volunteers ++ [v] }) ∧
      ((createVolunteer s b freshId now).1.status = 400 →
        (createVolunteer s b freshId now).2 = s)) ∧
    (∀ (dp : JsonVal → Option Int) (b : EventBody) (freshId : String) (now : Nat),
      (createEvent dp s b freshId now).2.volunteers = s.volunteers ∧
      (createEvent dp s b freshId now).2.registrations = s.registrations ∧
      (createEvent dp s b freshId now).2.feedbacks = s.feedbacks ∧
      (∀ e, (createEvent dp s b freshId now).1 = .created e →
        (createEvent dp s b freshId now).2 =
          { s with events := s.events ++ [e] }) ∧
      ((createEvent dp s b freshId now).1.status = 400 →
        (createEvent dp s b freshId now).2 = s)) ∧
    (∀ (b : RegistrationBody) (freshId : String) (now : Nat),
      (createRegistration s b freshId now).2.volunteers = s.volunteers ∧
      (createRegistration s b freshId now).2.events = s.events ∧
      (createRegistration s b freshId now).2.feedbacks = s.feedbacks ∧
      (∀ r, (createRegistration s b freshId now).1 = .created r →
        (createRegistration s b freshId now).2 =
          { s with registrations := s.registrations ++ [r] }) ∧
      ((createRegistration s b freshId now).1.status = 400 →
        (createRegistration s b freshId now).2 = s)) ∧
    (∀ (b : FeedbackBody) (freshId : String) (now : Nat),
      (createFeedback s b freshId now).2.volunteers = s.volunteers ∧
      (createFeedback s b freshId now).2.events = s.events ∧
      (createFeedback s b freshId now).2.registrations = s.registrations ∧
      (∀ f, (createFeedback s b freshId now).1 = .created f →
        (createFeedback s b freshId now).2 =
          { s with feedbacks := s.feedbacks ++ [f] }) ∧
      ((createFeedback s b freshId now).1.status = 400 →
        (createFeedback s b freshId now).2 = s)) ∧
    (∀ id, (getVolunteer s id).2 = s) ∧
    (listVolunteers s).2 = s ∧ (listEvents s).2 = s ∧
    (listRegistrations s).2 = s ∧ (listFeedbacks s).2 = s := by
  refine ⟨?_, ?_, ?_, ?_, ?_, rfl, rfl, rfl, rfl⟩
  · intro b freshId now
    obtain ⟨h1, h2, h3, h4, h5⟩ := createVolunteer_write s b freshId now
    refine ⟨h1, h2, h3, h4, fun hst => h5 ?_⟩
    intro v hv
    rw [hv] at hst
    exact absurd hst (by simp [VolunteerPostResult.status])
  · intro dp b freshId now
    obtain ⟨h1, h2, h3, h4, h5⟩ := createEvent_write dp s b freshId now
    refine ⟨h1, h2, h3, h4, fun hst => h5 ?_⟩
    intro e hv
    rw [hv] at hst
    exact absurd hst (by simp [EventPostResult.status])
  · intro b freshId now
    obtain ⟨h1, h2, h3, h4, h5⟩ := createRegistration_write s b freshId now
    refine ⟨h1, h2, h3, h4, fun hst => h5 ?_⟩
    intro r hv
    rw [hv] at hst
    exact absurd hst (by simp [RegistrationPostResult.status])
  · intro b freshId now
    obtain ⟨h1, h2, h3, h4, h5⟩ := createFeedback_write s b freshId now
    refine ⟨h1, h2, h3, h4, fun hst => h5 ?_⟩
    intro f hv
    rw [hv] at hst
    exact absurd hst (by simp [FeedbackPostResult.status])
  · intro id
    rw [getVolunteer]
    cases s.volunteers.find? (fun v => v.id == id) <;> rfl

/-- Witness for C9: after creating a registration on a store holding one
volunteer, the volunteer collection is untouched; a failing volunteer
creation on the same store changes nothing. -/
theorem frame_isolation_witness :
    (createRegistration
        (createVolunteer emptyState (volBody "Ann" "ann@x.com" "555" []) "id-1" 0).2
        (regBody "e1" "v1" "Registered") "id-2" 1).2.volunteers =
      (createVolunteer emptyState (volBody "Ann" "ann@x.com" "555" []) "id-1" 0).2.volunteers ∧
    (createVolunteer
        (createVolunteer emptyState (volBody "Ann" "ann@x.com" "555" []) "id-1" 0).2
        (volBody "" "" "" []) "id-3" 2).2 =
      (createVolunteer emptyState (volBody "Ann" "ann@x.com" "555" []) "id-1" 0).2 := by
  constructor
  · exact ((frame_isolation _).2.2.1 (regBody "e1" "v1" "Registered") "id-2" 1).1
  · exact ((frame_isolation _).1 (volBody "" "" "" []) "id-3" 2).2.2.2.2 rfl

/-! ### Claim C10: duplicate detection is case-sensitive -/

/-- C10: the duplicate scan compares stored string emails to the request
email with strict equality, which on strings is exact case-sensitive
equality. Hence two otherwise-valid volunteer requests whose email
strings differ anywhere — in particular, differ only in letter case —
both succeed from the empty store, and both records end up stored. -/
theorem email_case_sensitive (n1 e1 c1 n2 e2 c2 : String)
    (sk1 sk2 : List JsonVal)
    (hn1 : n1 ≠ "") (hc1 : c1 ≠ "") (hn2 : n2 ≠ "") (hc2 : c2 ≠ "")
    (hne : e1 ≠ e2)
    (hr1 : emailRegexTest e1 = true) (hr2 : emailRegexTest e2 = true)
    (id1 id2 : String) (t1 t2 : Nat) :
    ∃ v1 v2,
      createVolunteer emptyState (volBody n1 e1 c1 sk1) id1 t1 =
        (.created v1, { emptyState with volunteers := [v1] }) ∧
      createVolunteer { emptyState with volunteers := [v1] }
          (volBody n2 e2 c2 sk2) id2 t2 =
        (.created v2, { emptyState with volunteers := [v1, v2] }) ∧
      v1.email = .jstr e1 ∧ v2.email = .jstr e2 := by
  have hf1 : VolunteerFieldsOk (volBody n1 e1 c1 sk1) :=
    ⟨⟨n1, rfl, hn1⟩, ⟨.jstr e1, rfl, by
      simp [JsonVal.truthy, Bool.eq_false_iff, String.isEmpty_iff]
      intro h
      rw [h] at hr1
      exact absurd hr1 (by decide)⟩, ⟨c1, rfl, hc1⟩, ⟨sk1, rfl⟩⟩
  have hf2 : VolunteerFieldsOk (volBody n2 e2 c2 sk2) :=
    ⟨⟨n2, rfl, hn2⟩, ⟨.jstr e2, rfl, by
      simp [JsonVal.truthy, Bool.eq_false_iff, String.isEmpty_iff]
      intro h
      rw [h] at hr2
      exact absurd hr2 (by decide)⟩, ⟨c2, rfl, hc2⟩, ⟨sk2, rfl⟩⟩
  have he1 : VolunteerEmailOk (volBody n1 e1 c1 sk1) := by
    rw [VolunteerEmailOk]
    show emailRegexTest (JsonVal.jstr e1).jsToString = true
    rw [jsToString_jstr]
    exact hr1
  have he2 : VolunteerEmailOk (volBody n2 e2 c2 sk2) := by
    rw [VolunteerEmailOk]
    show emailRegexTest (JsonVal.jstr e2).jsToString = true
    rw [jsToString_jstr]
    exact hr2
  have hres1 := (createVolunteer_cases emptyState (volBody n1 e1 c1 sk1)
    id1 t1).2.2.2 hf1 he1 (by intro v hv; simp [emptyState] at hv)
  have hu2 : VolunteerEmailFresh
      { emptyState with volunteers := [mkVolunteer (volBody n1 e1 c1 sk1) id1 t1] }
      (volBody n2 e2 c2 sk2) := by
    intro v hv
    have hv2 : v = mkVolunteer (volBody n1 e1 c1 sk1) id1 t1 := by
      simpa using hv
    subst hv2
    show (JsonVal.jstr e1).jsStrictEq (.jstr e2) = false
    rw [jsStrictEq_jstr_jstr]
    exact beq_eq_false_iff_ne.mpr hne
  have hres2 := (createVolunteer_cases
    { emptyState with volunteers := [mkVolunteer (volBody n1 e1 c1 sk1) id1 t1] }
    (volBody n2 e2 c2 sk2) id2 t2).2.2.2 hf2 he2 hu2
  refine ⟨mkVolunteer (volBody n1 e1 c1 sk1) id1 t1,
    mkVolunteer (volBody n2 e2 c2 sk2) id2 t2, ?_, ?_, rfl, rfl⟩
  · rw [hres1]
    rfl
  · rw [hres2]
    rfl

/-- Witness for C10: `ann@x.com` then `Ann@x.com` — both creations
succeed and both records are stored. -/
theorem email_case_sensitive_witness :
    ∃ v1 v2,
      createVolunteer emptyState (volBody "Ann" "ann@x.com" "555" []) "id-1" 0 =
        (.created v1, { emptyState with volunteers := [v1] }) ∧
      createVolunteer { emptyState with volunteers := [v1] }
          (volBody "Ann2" "Ann@x.com" "777" []) "id-2" 1 =
        (.created v2, { emptyState with volunteers := [v1, v2] }) ∧
      v1.email = .jstr "ann@x.com" ∧ v2.email = .jstr "Ann@x.com" :=
  email_case_sensitive "Ann" "ann@x.com" "555" "Ann2" "Ann@x.com" "777" [] []
    (by decide) (by decide) (by decide) (by decide) (by decide)
    (by decide) (by decide) "id-1" "id-2" 0 1
